import Mathlib

/-!
# Verification of the code energy-efficiency estimator

Shallow embedding of the core of the estimator repository
(`collect_data.py`, `predict_energy.py`, `train_model.py`) and proofs
about it.  Python floats are modelled by `ℚ` (the numeric literals of the
source are exact decimal constants), machine measurements (CPU percent,
RSS, wall time, exit codes, timeouts) are explicit inputs, and fallible
Python control flow is modelled with `Option`/`Except`.
-/

set_option autoImplicit false

namespace EnergyEstimator

/-- The fixed energy formula `cpu*0.5 + memory*0.3 + exec_time*100*0.2`,
written inline at `collect_data.py` lines 77 and 113 and at
`predict_energy.py` line 56. -/
def energyFormula (cpu mem t : ℚ) : ℚ :=
  cpu * (1/2) + mem * (3/10) + t * 100 * (1/5)

/-- A loaded regression model: per the `TrainedModel` contract it accepts
exactly the 3-feature vector `(cpu, memory, exec_time)` and returns one
scalar. -/
def Model : Type := ℚ → ℚ → ℚ → ℚ

/-- State of `CompleteEnergyAnalyzer` after `__init__`
(`predict_energy.py` lines 24-49).  In the Python source `model_loaded`
and `model` are always updated together, so the state is the optional
model plus the resolved path. -/
structure AnalyzerState where
  model : Option Model
  model_path : String

/-- The `self.model_loaded` flag of the Python object. -/
def AnalyzerState.model_loaded (s : AnalyzerState) : Bool :=
  s.model.isSome

/-- Embeds `CompleteEnergyAnalyzer.predict_energy` (`predict_energy.py` lines
51-56): delegates to the loaded model, otherwise applies the fixed
formula. -/
def predict_energy (s : AnalyzerState) (cpu mem t : ℚ) : ℚ :=
  match s.model with
  | some m => m cpu mem t
  | none => energyFormula cpu mem t

/-- Variant of `predict_energy` with the Python exception channel made explicit:
neither branch of the source contains a raising operation (the model
satisfies the `TrainedModel` contract, the formula is pure arithmetic),
so each branch returns a value. -/
def predict_energyE (s : AnalyzerState) (cpu mem t : ℚ) : Except String ℚ :=
  match s.model with
  | some m => Except.ok (m cpu mem t)
  | none => Except.ok (energyFormula cpu mem t)

/-- The formula-mode analyzer state (no model found). -/
def formulaState : AnalyzerState :=
  { model := none, model_path := "models/energy_model.pkl" }

/-- C2: For all triples (cpu, memory, exec_time) of nonnegative rationals,
the scorer in formula mode (no model loaded) returns exactly
`cpu*0.5 + memory*0.3 + exec_time*100*0.2`. -/
theorem formula_mode_score (s : AnalyzerState) (cpu mem t : ℚ)
    (hmodel : s.model = none) (hc : 0 ≤ cpu) (hm : 0 ≤ mem) (ht : 0 ≤ t) :
    predict_energy s cpu mem t = cpu * (1/2) + mem * (3/10) + t * 100 * (1/5) := by
  simp [predict_energy, hmodel, energyFormula]

/-- Witness for C2 at the concrete triple (10, 20, 3). -/
theorem formula_mode_score_witness :
    predict_energy formulaState 10 20 3 = 10 * (1/2) + 20 * (3/10) + 3 * 100 * (1/5) :=
  formula_mode_score formulaState 10 20 3 rfl (by norm_num) (by norm_num)
    (by norm_num)

/-- C3: the scorer is a total function that never raises: for every state
(model loaded or not) and every input triple, the exception-explicit
embedding returns `ok` of the scored value. -/
theorem predict_energy_total (s : AnalyzerState) (cpu mem t : ℚ) :
    predict_energyE s cpu mem t = Except.ok (predict_energy s cpu mem t) := by
  cases h : s.model <;> simp [predict_energyE, predict_energy, h]

/-! ## Python AST fragment

The fragment of the `ast` module the estimator traverses: expressions
carrying `Name` and `Call` nodes, statements carrying `For`, `While` and
`If` nodes, and module-level `FunctionDef`s.  `ast.walk` visits every node
of a subtree; the counting functions below fold over the same subtree. -/

/-- Python expressions (the `ast` nodes relevant to call counting). -/
inductive PyExpr : Type where
  | nameE (id : String)
  | constE
  | binop (a b : PyExpr)
  | call (callee : PyExpr) (args : List PyExpr)

/-- Python statements (the `ast` nodes relevant to loop counting and
`len(node.body)`). -/
inductive PyStmt : Type where
  | sFor (iter : PyExpr) (body : List PyStmt)
  | sWhile (test : PyExpr) (body : List PyStmt)
  | sIf (test : PyExpr) (body orelse : List PyStmt)
  | sReturn (e : PyExpr)
  | sExpr (e : PyExpr)
  | sAssign (e : PyExpr)
  | sPass

/-- A module-level `ast.FunctionDef`: its name and its list of direct body
statements. -/
structure PyFunctionDef where
  name : String
  body : List PyStmt

/-- The result of `ast.parse` on a source text: a `ParseError` or the
module's function definitions. -/
def PySource : Type := Except Unit (List PyFunctionDef)

mutual
/-- Number of `ast.For`/`ast.While` nodes in the subtree of one statement
(what `ast.walk` counts inside `estimate_function_ast`). -/
def stmtLoops : PyStmt → Nat
  | .sFor _ body => 1 + stmtsLoops body
  | .sWhile _ body => 1 + stmtsLoops body
  | .sIf _ body orelse => stmtsLoops body + stmtsLoops orelse
  | .sReturn _ => 0
  | .sExpr _ => 0
  | .sAssign _ => 0
  | .sPass => 0

/-- Sum of `stmtLoops` over a statement list. -/
def stmtsLoops : List PyStmt → Nat
  | [] => 0
  | s :: rest => stmtLoops s + stmtsLoops rest
end

mutual
/-- Number of `ast.Call` nodes in an expression subtree whose callee is a
`Name` equal to `fname` (the `hasattr(n.func, 'id') and n.func.id ==
func_name` test of `estimate_function_ast`). -/
def exprCalls (fname : String) : PyExpr → Nat
  | .nameE _ => 0
  | .constE => 0
  | .binop a b => exprCalls fname a + exprCalls fname b
  | .call callee args =>
    (match callee with
     | .nameE id => if id = fname then 1 else 0
     | _ => 0) + exprCalls fname callee + exprsCalls fname args

/-- Sum of `exprCalls` over an argument list. -/
def exprsCalls (fname : String) : List PyExpr → Nat
  | [] => 0
  | e :: rest => exprCalls fname e + exprsCalls fname rest
end

mutual
/-- Self-call count over one statement's subtree. -/
def stmtCalls (fname : String) : PyStmt → Nat
  | .sFor iter body => exprCalls fname iter + stmtsCalls fname body
  | .sWhile test body => exprCalls fname test + stmtsCalls fname body
  | .sIf test body orelse =>
    exprCalls fname test + stmtsCalls fname body + stmtsCalls fname orelse
  | .sReturn e => exprCalls fname e
  | .sExpr e => exprCalls fname e
  | .sAssign e => exprCalls fname e
  | .sPass => 0

/-- Sum of `stmtCalls` over a statement list. -/
def stmtsCalls (fname : String) : List PyStmt → Nat
  | [] => 0
  | s :: rest => stmtCalls fname s + stmtsCalls fname rest
end

/-- Result record of function-level analysis in `predict_energy.py`
(the dict returned by `analyze_function` / `estimate_function_ast`). -/
structure AnalysisResult where
  function : String
  cpu_usage : ℚ
  memory_usage : ℚ
  exec_time : ℚ
  energy : ℚ
  estimated : Bool
deriving DecidableEq

/-- Embeds `CompleteEnergyAnalyzer.estimate_function_ast` (`predict_energy.py`
lines 310-338): re-parses the source, finds the first `FunctionDef` whose
name matches, counts loops, self-recursive calls and direct body
statements, and produces the synthetic proxy triple with
`estimated=true`.  Returns `none` when parsing fails or no definition
matches. -/
def estimate_function_ast (s : AnalyzerState) (src : PySource)
    (func_name : String) : Option AnalysisResult :=
  match src with
  | .error _ => none
  | .ok defs =>
    match defs.find? (fun f => f.name = func_name) with
    | none => none
    | some f =>
      let loops : ℚ := (stmtsLoops f.body : Nat)
      let recursion : ℚ := (stmtsCalls func_name f.body : Nat)
      let lines : ℚ := (f.body.length : Nat)
      let cpu_est := loops * 5 + recursion * 10 + lines * (1/2)
      let mem_est := lines * (1/5)
      let time_est := (loops * (1/10) + recursion * (1/2)) / 10
      some { function := func_name, cpu_usage := cpu_est,
             memory_usage := mem_est, exec_time := time_est,
             energy := predict_energy s cpu_est mem_est time_est,
             estimated := true }

/-- Helper: the value `estimate_function_ast` returns when the parsed
module contains a matching definition. -/
theorem estimate_function_ast_found (s : AnalyzerState)
    (defs : List PyFunctionDef) (func_name : String) (f : PyFunctionDef)
    (hfind : defs.find? (fun g => g.name = func_name) = some f) :
    estimate_function_ast s (Except.ok defs) func_name =
      some { function := func_name,
             cpu_usage := (stmtsLoops f.body : Nat) * 5 +
               (stmtsCalls func_name f.body : Nat) * 10 +
               (f.body.length : Nat) * (1/2),
             memory_usage := (f.body.length : Nat) * (1/5),
             exec_time := ((stmtsLoops f.body : Nat) * (1/10) +
               (stmtsCalls func_name f.body : Nat) * (1/2)) / 10,
             energy := predict_energy s
               ((stmtsLoops f.body : Nat) * 5 +
                 (stmtsCalls func_name f.body : Nat) * 10 +
                 (f.body.length : Nat) * (1/2))
               ((f.body.length : Nat) * (1/5))
               (((stmtsLoops f.body : Nat) * (1/10) +
                 (stmtsCalls func_name f.body : Nat) * (1/2)) / 10),
             estimated := true } := by
  simp [estimate_function_ast, hfind]

/-- C4: whenever the source parses and contains a definition of the named
function (first match, with loop count `L`, self-call count `R` and `S`
direct body statements), the Static Estimator returns exactly
`cpu_est = L*5 + R*10 + S*0.5`, `mem_est = S*0.2`,
`time_est = (L*0.1 + R*0.5)/10`, marks the sample `estimated=true`, and is
deterministic (identical source text gives identical output). -/
theorem estimate_function_ast_spec (s : AnalyzerState)
    (defs : List PyFunctionDef) (func_name : String) (f : PyFunctionDef)
    (hfind : defs.find? (fun g => g.name = func_name) = some f) :
    (∃ r : AnalysisResult,
        estimate_function_ast s (Except.ok defs) func_name = some r ∧
        r.cpu_usage = (stmtsLoops f.body : Nat) * 5 +
          (stmtsCalls func_name f.body : Nat) * 10 +
          (f.body.length : Nat) * (1/2) ∧
        r.memory_usage = (f.body.length : Nat) * (1/5) ∧
        r.exec_time = ((stmtsLoops f.body : Nat) * (1/10) +
          (stmtsCalls func_name f.body : Nat) * (1/2)) / 10 ∧
        r.estimated = true) ∧
    estimate_function_ast s (Except.ok defs) func_name =
      estimate_function_ast s (Except.ok defs) func_name := by
  exact ⟨⟨_, estimate_function_ast_found s defs func_name f hfind,
    rfl, rfl, rfl, rfl⟩, rfl⟩

/-- A concrete parsed function for the C4 witness:
`def g(x): for _ in it: g(); return c` with one loop, one self-call and
two direct body statements. -/
def sampleDef : PyFunctionDef :=
  { name := "g",
    body := [PyStmt.sFor (PyExpr.nameE "it")
               [PyStmt.sExpr (PyExpr.call (PyExpr.nameE "g") [])],
             PyStmt.sReturn PyExpr.constE] }

/-- Witness for C4 at `sampleDef`: L = 1, R = 1, S = 2 give
cpu 16, mem 0.4, time 0.06, estimated = true. -/
theorem estimate_function_ast_spec_witness :
    ∃ r : AnalysisResult,
      estimate_function_ast formulaState (Except.ok [sampleDef]) "g" = some r ∧
      r.cpu_usage = (stmtsLoops sampleDef.body : Nat) * 5 +
        (stmtsCalls "g" sampleDef.body : Nat) * 10 +
        (sampleDef.body.length : Nat) * (1/2) ∧
      r.memory_usage = (sampleDef.body.length : Nat) * (1/5) ∧
      r.exec_time = ((stmtsLoops sampleDef.body : Nat) * (1/10) +
        (stmtsCalls "g" sampleDef.body : Nat) * (1/2)) / 10 ∧
      r.estimated = true :=
  (estimate_function_ast_spec formulaState [sampleDef] "g" sampleDef
    (by simp [sampleDef, List.find?])).1

/-! ## Function-mode dynamic profiling

Both files read the script, `exec` it into a fresh namespace, look the
function up and call it with zero arguments.  The outcome of that
in-process attempt — the measured before/after samples on success, or the
exception class raised — is the environment input of the embedding. -/

/-- Before/after machine samples around a zero-argument in-process call:
`psutil.cpu_percent` and `psutil.Process().memory_info().rss` (in MB)
on each side, plus the wall-clock duration. -/
structure FuncMeasurement where
  cpu_before : ℚ
  cpu_after : ℚ
  mem_before : ℚ
  mem_after : ℚ
  exec_time : ℚ
deriving DecidableEq

/-- Outcome of locating and invoking the named function with zero
arguments. `typeError` is Python's signal that required positional
arguments are missing. -/
inductive InvokeResult : Type where
  | ok (m : FuncMeasurement)
  | typeError
  | otherException
  | nameNotFound
  | readFailure
deriving DecidableEq

/-- Embeds `os.path.basename`. -/
def basename (p : String) : String :=
  (p.splitOn "/").getLastD p

/-- A row of the function-level Sample Store
(`data/function_metrics.csv`). -/
structure FuncSample where
  script : String
  function : String
  cpu_usage : ℚ
  memory_usage : ℚ
  exec_time : ℚ
  energy_cost : ℚ
deriving DecidableEq

/-- Embeds `EnergyDataCollector.profile_function` (`collect_data.py` lines
39-89), the bulk-collection per-function step.  On success it clamps the
CPU and RSS deltas at 0 and computes the inline energy formula; on
`TypeError` ("Function needs arguments - skip", lines 62-64) and on every
other failure it returns `None`. -/
def profile_function (script_path function_name : String)
    (r : InvokeResult) : Option FuncSample :=
  match r with
  | .readFailure => none
  | .nameNotFound => none
  | .typeError => none
  | .otherException => none
  | .ok m =>
    let cpu_usage := max (m.cpu_after - m.cpu_before) 0
    let memory_usage := max (m.mem_after - m.mem_before) 0
    let energy := cpu_usage * (1/2) + memory_usage * (3/10) +
      m.exec_time * 100 * (1/5)
    some { script := basename script_path, function := function_name,
           cpu_usage := cpu_usage, memory_usage := memory_usage,
           exec_time := m.exec_time, energy_cost := energy }

/-- Embeds `CompleteEnergyAnalyzer.analyze_function` (`predict_energy.py` lines
266-308), the single-script analysis per-function step.  On `TypeError`
it delegates to `estimate_function_ast`; on success it scores the clamped
deltas through `predict_energy`; every other failure yields `None`. -/
def analyze_function (s : AnalyzerState) (src : PySource)
    (func_name : String) (r : InvokeResult) : Option AnalysisResult :=
  match r with
  | .readFailure => none
  | .nameNotFound => none
  | .typeError => estimate_function_ast s src func_name
  | .otherException => none
  | .ok m =>
    let cpu_usage := max (m.cpu_after - m.cpu_before) 0
    let memory_usage := max (m.mem_after - m.mem_before) 0
    some { function := func_name, cpu_usage := cpu_usage,
           memory_usage := memory_usage, exec_time := m.exec_time,
           energy := predict_energy s cpu_usage memory_usage m.exec_time,
           estimated := false }

/-- Embeds `extract_functions` (`collect_data.py` lines 24-37 and
`predict_energy.py` lines 257-264): the function names of the parsed
module, or `[]` when parsing raised. -/
def extract_functions (src : PySource) : List String :=
  match src with
  | .error _ => []
  | .ok defs => defs.map (fun f => f.name)

/-- C1 counterexample: in bulk collection, a discovered function whose
zero-argument invocation raises `TypeError` (required positional
arguments missing) is dropped — `profile_function` returns `None`, so no
function-level sample (estimated or otherwise) is appended for it. -/
theorem bulk_needs_args_drops_function :
    profile_function "test_scripts/demo.py" "needs_arg" InvokeResult.typeError
      = none := rfl

/-- C1 amended: on a needs-arguments `TypeError` the bulk-collection
pipeline of `collect_data.py` appends nothing (its per-function step
yields `None`); only the single-script analysis path of
`predict_energy.py` delegates to the Static Estimator, and there a parsed
matching definition yields a result with `estimated = true`. -/
theorem needs_args_delegation_split (s : AnalyzerState)
    (script fn : String) (defs : List PyFunctionDef) (f : PyFunctionDef)
    (hfind : defs.find? (fun g => g.name = fn) = some f) :
    profile_function script fn InvokeResult.typeError = none ∧
    analyze_function s (Except.ok defs) fn InvokeResult.typeError =
      estimate_function_ast s (Except.ok defs) fn ∧
    ∃ r : AnalysisResult,
      analyze_function s (Except.ok defs) fn InvokeResult.typeError = some r ∧
      r.estimated = true := by
  exact ⟨rfl, rfl, _, estimate_function_ast_found s defs fn f hfind, rfl⟩

/-- Witness for the amended C1 at the concrete parsed module
`[sampleDef]`. -/
theorem needs_args_delegation_split_witness :
    profile_function "test_scripts/demo.py" "g" InvokeResult.typeError = none ∧
    analyze_function formulaState (Except.ok [sampleDef]) "g"
        InvokeResult.typeError =
      estimate_function_ast formulaState (Except.ok [sampleDef]) "g" ∧
    ∃ r : AnalysisResult,
      analyze_function formulaState (Except.ok [sampleDef]) "g"
          InvokeResult.typeError = some r ∧
      r.estimated = true :=
  needs_args_delegation_split formulaState "test_scripts/demo.py" "g"
    [sampleDef] sampleDef (by simp [sampleDef, List.find?])

/-! ## Script-mode dynamic profiling -/

/-- Machine samples around one `subprocess.run(["python", script], ...)`:
system-wide CPU percent and virtual-memory percent, the profiler
process's RSS (MB), wall time, and whether the child timed out or failed
to launch. -/
structure ScriptMeasurement where
  cpu_before : ℚ
  cpu_after : ℚ
  vmem_before : ℚ
  vmem_after : ℚ
  rss_before : ℚ
  rss_after : ℚ
  exec_time : ℚ
  timedOut : Bool
  launchError : Bool
  returncode : Int
deriving DecidableEq

/-- A row of the script-level Sample Store (`data/code_metrics.csv`). -/
structure ScriptSample where
  script : String
  cpu_usage : ℚ
  memory_usage : ℚ
  exec_time : ℚ
  energy_cost : ℚ
deriving DecidableEq

/-- Embeds `EnergyDataCollector.collect_script_metrics` (`collect_data.py` lines
91-127): samples `psutil.cpu_percent` and `psutil.virtual_memory().percent`
before and after the child process, reports `max(after, before)` for both,
computes the inline energy formula; timeout or any other failure yields
`None`. -/
def collect_script_metrics (script_path : String) (m : ScriptMeasurement) :
    Option ScriptSample :=
  if m.timedOut then none
  else if m.launchError then none
  else
    let cpu_usage := max m.cpu_after m.cpu_before
    let memory_usage := max m.vmem_after m.vmem_before
    let energy := cpu_usage * (1/2) + memory_usage * (3/10) +
      m.exec_time * 100 * (1/5)
    some { script := basename script_path, cpu_usage := cpu_usage,
           memory_usage := memory_usage, exec_time := m.exec_time,
           energy_cost := energy }

/-- The metrics dict of `measure_script_metrics` when execution
succeeds. -/
structure ScriptMetrics where
  cpu_usage : ℚ
  memory_usage : ℚ
  exec_time : ℚ
  success : Bool
deriving DecidableEq

/-- Embeds `CompleteEnergyAnalyzer.measure_script_metrics` (`predict_energy.py`
lines 226-255): `cpu_usage = max(cpu_after, cpu_before)` system-wide, but
`memory_usage = max(mem_after - mem_before, 0)` where both samples are the
profiler process's RSS; timeout and launch failure return the error
dict. -/
def measure_script_metrics (m : ScriptMeasurement) :
    Except String ScriptMetrics :=
  if m.timedOut then Except.error "Script timed out (30s limit)"
  else if m.launchError then Except.error "Execution failed"
  else Except.ok
    { cpu_usage := max m.cpu_after m.cpu_before,
      memory_usage := max (m.rss_after - m.rss_before) 0,
      exec_time := m.exec_time,
      success := m.returncode == 0 }

/-- A concrete script-mode measurement for the C8 counterexample: the
system virtual-memory percentage moves from 40 to 50 while the profiler's
RSS drops from 5 MB to 3 MB. -/
def c8Measurement : ScriptMeasurement :=
  { cpu_before := 10, cpu_after := 20, vmem_before := 40, vmem_after := 50,
    rss_before := 5, rss_after := 3, exec_time := 1, timedOut := false,
    launchError := false, returncode := 0 }

/-- C8 counterexample: in the single-script analysis path,
`measure_script_metrics` does not report
`memory_usage = max(after, before)` of the system virtual-memory
percentage — at `c8Measurement` it reports the clamped RSS delta `0`,
while `max(after, before)` of the virtual-memory samples is `50`. -/
theorem analysis_memory_not_system_max :
    measure_script_metrics c8Measurement =
      Except.ok { cpu_usage := 20, memory_usage := 0, exec_time := 1,
                  success := true } ∧
    max c8Measurement.vmem_after c8Measurement.vmem_before = 50 ∧
    (0 : ℚ) ≠ 50 := by
  refine ⟨by norm_num [measure_script_metrics, c8Measurement, max_def],
    by norm_num [c8Measurement, max_def], by norm_num⟩

/-- C8 amended: in the bulk-collection path both values are system-wide
maxima (`cpu_usage = max(cpu_after, cpu_before)`,
`memory_usage = max(vmem_after, vmem_before)`); in the single-script
analysis path only the CPU value is the system-wide maximum, while
`memory_usage` is the profiler-process RSS delta clamped at 0. -/
theorem script_mode_metrics_spec (p : String) (m : ScriptMeasurement)
    (hT : m.timedOut = false) (hL : m.launchError = false) :
    (∃ r : ScriptSample,
        collect_script_metrics p m = some r ∧
        r.cpu_usage = max m.cpu_after m.cpu_before ∧
        r.memory_usage = max m.vmem_after m.vmem_before) ∧
    (∃ r : ScriptMetrics,
        measure_script_metrics m = Except.ok r ∧
        r.cpu_usage = max m.cpu_after m.cpu_before ∧
        r.memory_usage = max (m.rss_after - m.rss_before) 0) := by
  have h1 : collect_script_metrics p m =
      some { script := basename p,
             cpu_usage := max m.cpu_after m.cpu_before,
             memory_usage := max m.vmem_after m.vmem_before,
             exec_time := m.exec_time,
             energy_cost := (max m.cpu_after m.cpu_before) * (1/2) +
               (max m.vmem_after m.vmem_before) * (3/10) +
               m.exec_time * 100 * (1/5) } := by
    simp [collect_script_metrics, hT, hL]
  have h2 : measure_script_metrics m =
      Except.ok { cpu_usage := max m.cpu_after m.cpu_before,
                  memory_usage := max (m.rss_after - m.rss_before) 0,
                  exec_time := m.exec_time,
                  success := m.returncode == 0 } := by
    simp [measure_script_metrics, hT, hL]
  exact ⟨⟨_, h1, rfl, rfl⟩, ⟨_, h2, rfl, rfl⟩⟩

/-- Witness for the amended C8 at `c8Measurement`. -/
theorem script_mode_metrics_spec_witness :
    (∃ r : ScriptSample,
        collect_script_metrics "a.py" c8Measurement = some r ∧
        r.cpu_usage = max c8Measurement.cpu_after c8Measurement.cpu_before ∧
        r.memory_usage =
          max c8Measurement.vmem_after c8Measurement.vmem_before) ∧
    (∃ r : ScriptMetrics,
        measure_script_metrics c8Measurement = Except.ok r ∧
        r.cpu_usage = max c8Measurement.cpu_after c8Measurement.cpu_before ∧
        r.memory_usage =
          max (c8Measurement.rss_after - c8Measurement.rss_before) 0) :=
  script_mode_metrics_spec "a.py" c8Measurement rfl rfl

/-! ## Bulk collection (`collect_all_data`, `collect_data.py` lines
129-172)

One `ScriptRun` is the environment of one iteration of the main loop:
the script path, the machine samples around its child-process run, its
parse result, and the invocation outcome of each of its functions. -/

/-- Environment of one script in the bulk-collection loop. -/
structure ScriptRun where
  path : String
  scriptMeas : ScriptMeasurement
  source : PySource
  invoke : String → InvokeResult

/-- The function-level samples one script contributes: each extracted
name is profiled and the `None` results are dropped (`collect_data.py`
lines 160-167). -/
def collect_function_results (r : ScriptRun) : List FuncSample :=
  (extract_functions r.source).filterMap
    (fun n => profile_function r.path n (r.invoke n))

/-- Embeds `EnergyDataCollector.collect_all_data` (`collect_data.py` lines
149-169): the script-level and function-level result lists accumulated
over the batch, in order. -/
def collect_all_data (runs : List ScriptRun) :
    List ScriptSample × List FuncSample :=
  (runs.filterMap (fun r => collect_script_metrics r.path r.scriptMeas),
   runs.flatMap collect_function_results)

/-- C5: a script whose source fails to parse contributes zero
function-level samples (the `ParseError` is swallowed inside
`extract_functions`), and both the script-level results and the
function-level results of every other script in the batch are exactly
what they would be without interference. -/
theorem parse_error_isolated (pre post : List ScriptRun) (bad : ScriptRun)
    (hbad : bad.source = Except.error ()) :
    collect_function_results bad = [] ∧
    (collect_all_data (pre ++ bad :: post)).2 =
      (collect_all_data pre).2 ++ (collect_all_data post).2 ∧
    (collect_all_data (pre ++ bad :: post)).1 =
      (collect_all_data pre).1 ++
        (collect_script_metrics bad.path bad.scriptMeas).toList ++
        (collect_all_data post).1 := by
  have hempty : collect_function_results bad = [] := by
    simp [collect_function_results, extract_functions, hbad]
  refine ⟨hempty, ?_, ?_⟩
  · simp [collect_all_data, hempty]
  · cases h : collect_script_metrics bad.path bad.scriptMeas <;>
      simp [collect_all_data, h, List.filterMap_append]

/-- A run whose source is syntactically invalid, for the C5 witness. -/
def badRun : ScriptRun :=
  { path := "test_scripts/broken.py", scriptMeas := c8Measurement,
    source := Except.error (), invoke := fun _ => InvokeResult.typeError }

/-- A run with a parsable source, for the C5 and C10 witnesses. -/
def goodRun : ScriptRun :=
  { path := "a.py", scriptMeas := c8Measurement,
    source := Except.ok [sampleDef],
    invoke := fun _ => InvokeResult.typeError }

/-- Witness for C5 with the concrete batch `[goodRun, badRun]`. -/
theorem parse_error_isolated_witness :
    collect_function_results badRun = [] ∧
    (collect_all_data ([goodRun] ++ badRun :: [])).2 =
      (collect_all_data [goodRun]).2 ++ (collect_all_data []).2 ∧
    (collect_all_data ([goodRun] ++ badRun :: [])).1 =
      (collect_all_data [goodRun]).1 ++
        (collect_script_metrics badRun.path badRun.scriptMeas).toList ++
        (collect_all_data []).1 :=
  parse_error_isolated [goodRun] [] badRun rfl

/-- Helper: a script-level sample produced by `collect_script_metrics`
carries the fixed formula of its own triple as its energy cost. -/
theorem collect_script_metrics_energy (p : String) (m : ScriptMeasurement)
    (s : ScriptSample) (h : collect_script_metrics p m = some s) :
    s.energy_cost = energyFormula s.cpu_usage s.memory_usage s.exec_time := by
  unfold collect_script_metrics at h
  split at h
  · exact absurd h (by simp)
  · split at h
    · exact absurd h (by simp)
    · cases Option.some.inj h
      rfl

/-- Helper: a function-level sample produced by `profile_function`
carries the fixed formula of its own triple as its energy cost. -/
theorem profile_function_energy (p n : String) (r : InvokeResult)
    (s : FuncSample) (h : profile_function p n r = some s) :
    s.energy_cost = energyFormula s.cpu_usage s.memory_usage s.exec_time := by
  cases r with
  | ok m => cases Option.some.inj h; rfl
  | typeError => exact absurd h (by simp [profile_function])
  | otherException => exact absurd h (by simp [profile_function])
  | nameNotFound => exact absurd h (by simp [profile_function])
  | readFailure => exact absurd h (by simp [profile_function])

/-- C10: every sample the bulk-collection pipeline accumulates —
script-level or function-level — has `energy_cost` equal to the fixed
formula applied to its own triple; `collect_all_data` takes no analyzer
state, so no trained model is ever consulted during collection. -/
theorem collection_energy_is_formula (runs : List ScriptRun) :
    (∀ s ∈ (collect_all_data runs).1,
        s.energy_cost = energyFormula s.cpu_usage s.memory_usage s.exec_time) ∧
    (∀ s ∈ (collect_all_data runs).2,
        s.energy_cost = energyFormula s.cpu_usage s.memory_usage s.exec_time) := by
  constructor
  · intro s hs
    obtain ⟨r, -, hr⟩ := List.mem_filterMap.mp hs
    exact collect_script_metrics_energy r.path r.scriptMeas s hr
  · intro s hs
    obtain ⟨r, -, hr⟩ := List.mem_flatMap.mp hs
    obtain ⟨n, -, hn⟩ := List.mem_filterMap.mp hr
    exact profile_function_energy r.path n (r.invoke n) s hn

/-- The concrete script-level sample `goodRun` produces, for the C10
witness. -/
def goodScriptSample : ScriptSample :=
  { script := basename "a.py",
    cpu_usage := max (20 : ℚ) 10,
    memory_usage := max (50 : ℚ) 40,
    exec_time := 1,
    energy_cost := max (20 : ℚ) 10 * (1/2) + max (50 : ℚ) 40 * (3/10) +
      1 * 100 * (1/5) }

/-- Witness for C10: the sample collected from `goodRun` satisfies the
formula invariant. -/
theorem collection_energy_is_formula_witness :
    goodScriptSample.energy_cost = energyFormula goodScriptSample.cpu_usage
      goodScriptSample.memory_usage goodScriptSample.exec_time :=
  (collection_energy_is_formula [goodRun]).1 goodScriptSample (by
    have h : collect_script_metrics goodRun.path goodRun.scriptMeas =
        some goodScriptSample := rfl
    simp [collect_all_data, h])

/-! ## Analyzer construction and model loading
(`CompleteEnergyAnalyzer.__init__`, `predict_energy.py` lines 24-49) -/

/-- What the filesystem yields for one candidate model path:
no file, a file `joblib.load` raises on, or a loadable model. -/
inductive LoadOutcome : Type where
  | absent
  | corrupt
  | loaded (m : Model)

/-- Whether an outcome leaves the analyzer without a model. -/
def LoadOutcome.fails : LoadOutcome → Bool
  | .absent => true
  | .corrupt => true
  | .loaded _ => false

/-- The ordered candidate list of `__init__` (lines 31-36): the explicit
constructor argument, the default relative path, the path relative to the
installed file's directory, and the user-home fallback. -/
def possible_paths (model_path dir home : String) : List String :=
  [model_path,
   "models/energy_model.pkl",
   dir ++ "/models/energy_model.pkl",
   home ++ "/.energy_analyzer/energy_model.pkl"]

/-- The loading loop of `__init__` (lines 38-46): skip absent paths, catch
and skip corrupt artifacts, stop at the first successful load. -/
def tryLoadPaths (fs : String → LoadOutcome) : List String → Option (Model × String)
  | [] => none
  | p :: rest =>
    match fs p with
    | .loaded m => some (m, p)
    | .absent => tryLoadPaths fs rest
    | .corrupt => tryLoadPaths fs rest

/-- Embeds `CompleteEnergyAnalyzer.__init__`: the resulting analyzer state. -/
def analyzerInit (fs : String → LoadOutcome) (model_path dir home : String) :
    AnalyzerState :=
  match tryLoadPaths fs (possible_paths model_path dir home) with
  | some (m, p) => { model := some m, model_path := p }
  | none => { model := none, model_path := model_path }

/-- Helper: the loading loop returns the first loadable entry, skipping
any prefix of absent or corrupt paths. -/
theorem tryLoadPaths_first_success (fs : String → LoadOutcome)
    (pre : List String) (p : String) (m : Model) (post : List String)
    (hpre : ∀ q ∈ pre, (fs q).fails = true) (hp : fs p = LoadOutcome.loaded m) :
    tryLoadPaths fs (pre ++ p :: post) = some (m, p) := by
  induction pre with
  | nil => simp [tryLoadPaths, hp]
  | cons q rest ih =>
    have hq := hpre q (by simp)
    have hrest : ∀ x ∈ rest, (fs x).fails = true := by
      intro x hx
      exact hpre x (by simp [hx])
    cases hfs : fs q with
    | loaded m0 => simp [hfs, LoadOutcome.fails] at hq
    | absent => simpa [tryLoadPaths, hfs] using ih hrest
    | corrupt => simpa [tryLoadPaths, hfs] using ih hrest

/-- Helper: when every path fails to load, the loop returns nothing. -/
theorem tryLoadPaths_all_fail (fs : String → LoadOutcome) (ps : List String)
    (h : ∀ q ∈ ps, (fs q).fails = true) :
    tryLoadPaths fs ps = none := by
  induction ps with
  | nil => rfl
  | cons q rest ih =>
    have hq := h q (by simp)
    have hrest := ih (fun x hx => h x (by simp [hx]))
    cases hfs : fs q with
    | loaded m0 => simp [hfs, LoadOutcome.fails] at hq
    | absent => simpa [tryLoadPaths, hfs] using hrest
    | corrupt => simpa [tryLoadPaths, hfs] using hrest

/-- C7: construction tries the ordered candidate list; the first
successful load wins (absent and corrupt entries before it are skipped
alike), and when every candidate is absent or corrupt the analyzer holds
no model and every subsequent score call computes the fixed formula. -/
theorem analyzer_init_load_order (fs : String → LoadOutcome)
    (model_path dir home : String) :
    (∀ pre p post (m : Model),
        possible_paths model_path dir home = pre ++ p :: post →
        (∀ q ∈ pre, (fs q).fails = true) →
        fs p = LoadOutcome.loaded m →
        (analyzerInit fs model_path dir home).model = some m ∧
        (analyzerInit fs model_path dir home).model_path = p) ∧
    ((∀ q ∈ possible_paths model_path dir home, (fs q).fails = true) →
        (analyzerInit fs model_path dir home).model = none ∧
        ∀ cpu mem t, predict_energy (analyzerInit fs model_path dir home)
          cpu mem t = energyFormula cpu mem t) := by
  constructor
  · intro pre p post m hsplit hpre hp
    have h := tryLoadPaths_first_success fs pre p m post hpre hp
    rw [analyzerInit, hsplit, h]
    exact ⟨rfl, rfl⟩
  · intro hall
    have h := tryLoadPaths_all_fail fs _ hall
    rw [analyzerInit, h]
    exact ⟨rfl, fun cpu mem t => rfl⟩

/-- A concrete filesystem for the C7 witness: the first two candidates
are missing, the third is corrupt, the fourth is missing. -/
def fsAllFail : String → LoadOutcome := fun p =>
  if p = "/inst/models/energy_model.pkl" then LoadOutcome.corrupt
  else LoadOutcome.absent

/-- Witness for C7: with every candidate absent or corrupt, construction
yields formula mode. -/
theorem analyzer_init_load_order_witness :
    (analyzerInit fsAllFail "custom.pkl" "/inst" "/home/u").model = none ∧
    ∀ cpu mem t, predict_energy (analyzerInit fsAllFail "custom.pkl" "/inst" "/home/u")
      cpu mem t = energyFormula cpu mem t :=
  (analyzer_init_load_order fsAllFail "custom.pkl" "/inst" "/home/u").2 (by
    intro q hq
    fin_cases hq <;> rfl)

/-! ## Training pipeline (`train_model.py`) -/

/-- A row of the function-level training dataset
(`data/function_metrics.csv`). -/
structure TrainRow where
  cpu_usage : ℚ
  memory_usage : ℚ
  exec_time : ℚ
  energy_cost : ℚ
deriving DecidableEq

/-- The state of the training-data location: whether the CSV file exists
and, when it does, its data rows. -/
structure TrainEnv where
  fileExists : Bool
  rows : List TrainRow
deriving DecidableEq

/-- One step of `run_full_pipeline`, recorded in execution order. -/
inductive TrainStep : Type where
  | loadData
  | prepareFeatures
  | splitCall
  | fitCall
  | evaluate
  | saveModel
deriving DecidableEq

/-- Observable result of `run_full_pipeline`: the steps attempted in
order, whether the artifact was written, and the return value — `ok b`
when the Python method returns `b`, `error` when an exception escapes
uncaught. -/
structure PipelineResult where
  steps : List TrainStep
  artifactWritten : Bool
  outcome : Except String Bool

/-- The strategy names accepted by `train_model` (`train_model.py` lines
66-84). -/
def knownModelTypes : List String :=
  ["random_forest", "gradient_boosting", "linear"]

/-- Embeds `sklearn.model_selection.train_test_split` with `test_size=0.2` on
`n` samples: the test share is `ceil(0.2*n)` and a `ValueError` is raised
when either resulting side is empty (in particular when `n = 0`). -/
def train_test_split (n : Nat) : Except String (Nat × Nat) :=
  let n_test := (n + 4) / 5
  let n_train := n - n_test
  if n_test = 0 ∨ n_train = 0 then
    Except.error "ValueError: resulting split would be empty"
  else Except.ok (n_train, n_test)

/-- Embeds `EnergyModelTrainer.run_full_pipeline` (`train_model.py` lines
161-195): `load_data` fails fast only when the file is absent; an
existing file of any size passes on to `prepare_features`, whose
`train_test_split` call is the first place an empty dataset can fail;
`train_model` rejects unknown strategies before fitting; fit, evaluate
and save follow in order. -/
def run_full_pipeline (env : TrainEnv) (model_type : String) :
    PipelineResult :=
  if env.fileExists = false then
    { steps := [TrainStep.loadData], artifactWritten := false,
      outcome := Except.ok false }
  else
    match train_test_split env.rows.length with
    | Except.error e =>
      { steps := [TrainStep.loadData, TrainStep.prepareFeatures,
                  TrainStep.splitCall],
        artifactWritten := false, outcome := Except.error e }
    | Except.ok _ =>
      if model_type ∈ knownModelTypes then
        { steps := [TrainStep.loadData, TrainStep.prepareFeatures,
                    TrainStep.splitCall, TrainStep.fitCall,
                    TrainStep.evaluate, TrainStep.saveModel],
          artifactWritten := true, outcome := Except.ok true }
      else
        { steps := [TrainStep.loadData, TrainStep.prepareFeatures,
                    TrainStep.splitCall],
          artifactWritten := false, outcome := Except.ok false }

/-- Embeds `main` of `train_model.py` (lines 197-214): an argument outside the known
strategy names exits 1 before any work; otherwise the process exit code
is 0 exactly when the pipeline returns `True` (an uncaught exception also
terminates the interpreter with exit code 1). -/
def train_main (argv : List String) (env : TrainEnv) : Nat :=
  match argv with
  | [] =>
    match (run_full_pipeline env "random_forest").outcome with
    | Except.ok true => 0
    | Except.ok false => 1
    | Except.error _ => 1
  | a :: _ =>
    if a ∈ knownModelTypes then
      match (run_full_pipeline env a).outcome with
      | Except.ok true => 0
      | Except.ok false => 1
      | Except.error _ => 1
    else 1

/-- The empty-dataset environment: the CSV exists but has zero rows. -/
def emptyEnv : TrainEnv := { fileExists := true, rows := [] }

/-- C6 counterexample: on the empty dataset the pipeline does not fail
before the split — `load_data` succeeds and the `train_test_split` call
is attempted (it is the raising step). -/
theorem empty_dataset_reaches_split :
    TrainStep.splitCall ∈ (run_full_pipeline emptyEnv "random_forest").steps ∧
    (run_full_pipeline emptyEnv "random_forest").outcome =
      Except.error "ValueError: resulting split would be empty" := by
  exact ⟨by decide, rfl⟩

/-- C6 amended: on an existing-but-empty dataset the pipeline fails
inside the train/test split call (a `ValueError` escapes uncaught): no
fit, evaluation or save step is reached, no model artifact is written,
and the process exit code is non-zero. -/
theorem empty_dataset_training_aborts (env : TrainEnv) (mt : String)
    (hfile : env.fileExists = true) (hrows : env.rows = []) :
    (run_full_pipeline env mt).outcome =
      Except.error "ValueError: resulting split would be empty" ∧
    TrainStep.fitCall ∉ (run_full_pipeline env mt).steps ∧
    TrainStep.saveModel ∉ (run_full_pipeline env mt).steps ∧
    (run_full_pipeline env mt).artifactWritten = false ∧
    train_main [mt] env = 1 ∧ train_main [] env = 1 := by
  have hsplit : train_test_split env.rows.length = Except.error
      "ValueError: resulting split would be empty" := by
    rw [hrows]
    rfl
  have hpipe : ∀ t : String, run_full_pipeline env t =
      { steps := [TrainStep.loadData, TrainStep.prepareFeatures,
                  TrainStep.splitCall],
        artifactWritten := false,
        outcome := Except.error "ValueError: resulting split would be empty" } := by
    intro t
    rw [run_full_pipeline, hfile, hsplit]
    rfl
  have hmain1 : train_main [mt] env = 1 := by
    rw [train_main]
    split
    · rw [hpipe mt]
    · rfl
  have hmain0 : train_main [] env = 1 := by
    rw [train_main, hpipe "random_forest"]
  refine ⟨?_, ?_, ?_, ?_, hmain1, hmain0⟩ <;> rw [hpipe mt]
  all_goals decide

/-- Witness for the amended C6 at the concrete empty environment and the
strategy name `random_forest`. -/
theorem empty_dataset_training_aborts_witness :
    (run_full_pipeline emptyEnv "random_forest").outcome =
      Except.error "ValueError: resulting split would be empty" ∧
    TrainStep.fitCall ∉ (run_full_pipeline emptyEnv "random_forest").steps ∧
    TrainStep.saveModel ∉ (run_full_pipeline emptyEnv "random_forest").steps ∧
    (run_full_pipeline emptyEnv "random_forest").artifactWritten = false ∧
    train_main ["random_forest"] emptyEnv = 1 ∧ train_main [] emptyEnv = 1 :=
  empty_dataset_training_aborts emptyEnv "random_forest" rfl rfl

/-! ## CLI surface (`train_model.py main`, `predict_energy.py main`) -/

/-- The user-visible outcome of `analyze_script`. -/
inductive AnalyzeOutcome : Type where
  | fileNotFound
  | execError (msg : String)
  | report (energy : ℚ)
deriving DecidableEq

/-- Embeds `CompleteEnergyAnalyzer.analyze_script` (`predict_energy.py` lines
410-429, script-level part): a missing target prints an error and
returns; a measurement error prints and returns; otherwise the metrics
are scored and reported. -/
def analyze_script (targetExists : Bool) (s : AnalyzerState)
    (m : ScriptMeasurement) : AnalyzeOutcome :=
  if targetExists = false then AnalyzeOutcome.fileNotFound
  else
    match measure_script_metrics m with
    | Except.error e => AnalyzeOutcome.execError e
    | Except.ok r =>
      AnalyzeOutcome.report
        (predict_energy s r.cpu_usage r.memory_usage r.exec_time)

/-- Embeds `main` of `predict_energy.py` (lines 455-511): every branch returns
normally — the source contains no `sys.exit` call — so the interpreter
exit code is 0 on all of them; the pair also records the analysis
outcome when script-analysis mode ran. -/
def predict_main (argv : List String) (targetExists : Bool)
    (s : AnalyzerState) (m : ScriptMeasurement) : Nat × Option AnalyzeOutcome :=
  match argv with
  | [] => (0, none)
  | a :: _ =>
    if a = "--help" ∨ a = "-h" ∨ a = "help" then (0, none)
    else if a = "--live" then (0, none)
    else if a = "--stats" then (0, none)
    else (0, some (analyze_script targetExists s m))

/-- C9 counterexample: single-script analysis of a nonexistent target
path terminates with exit code 0, not 1 — the not-found error is only
printed. -/
theorem missing_target_exit_code_zero :
    predict_main ["missing.py"] false formulaState c8Measurement =
      (0, some AnalyzeOutcome.fileNotFound) ∧ (0 : Nat) ≠ 1 :=
  ⟨rfl, by decide⟩

/-- C9 amended: the training CLI exits 0 on success, 1 on an unknown
model type and 1 on a missing training-data file; the analysis CLI exits
0 even when the target script does not exist (the fatal condition is
reported only on standard output). -/
theorem cli_exit_codes (a : String) (env envMissing env2 : TrainEnv)
    (mt mt2 : String) (s : AnalyzerState) (m : ScriptMeasurement)
    (path : String)
    (hunknown : a ∉ knownModelTypes)
    (hmt : mt ∈ knownModelTypes)
    (hmissing : envMissing.fileExists = false)
    (hmt2 : mt2 ∈ knownModelTypes)
    (hok : (run_full_pipeline env2 mt2).outcome = Except.ok true)
    (hpath : path ∉ ["--help", "-h", "help", "--live", "--stats"]) :
    train_main [a] env = 1 ∧
    train_main [mt] envMissing = 1 ∧
    train_main [mt2] env2 = 0 ∧
    predict_main [path] false s m = (0, some AnalyzeOutcome.fileNotFound) := by
  refine ⟨?_, ?_, ?_, ?_⟩
  · rw [train_main, if_neg hunknown]
  · rw [train_main, if_pos hmt, run_full_pipeline, hmissing]
    rfl
  · rw [train_main, if_pos hmt2, hok]
  · have hp : ¬path = "--help" ∧ ¬path = "-h" ∧ ¬path = "help" ∧
        ¬path = "--live" ∧ ¬path = "--stats" := by
      simpa [not_or] using hpath
    have h1 : ¬(path = "--help" ∨ path = "-h" ∨ path = "help") := by
      rintro (h | h | h)
      · exact hp.1 h
      · exact hp.2.1 h
      · exact hp.2.2.1 h
    rw [predict_main, if_neg h1, if_neg hp.2.2.2.1, if_neg hp.2.2.2.2,
      analyze_script]
    rfl

/-- Witness for the amended C9: concrete argument vectors and
environments for all four branches. -/
theorem cli_exit_codes_witness :
    train_main ["unknown_type"] emptyEnv = 1 ∧
    train_main ["random_forest"] { fileExists := false, rows := [] } = 1 ∧
    train_main ["random_forest"]
      { fileExists := true,
        rows := [⟨1, 1, 1, 1⟩, ⟨2, 2, 2, 2⟩, ⟨3, 3, 3, 3⟩, ⟨4, 4, 4, 4⟩,
                 ⟨5, 5, 5, 5⟩] } = 0 ∧
    predict_main ["missing_script.py"] false formulaState c8Measurement =
      (0, some AnalyzeOutcome.fileNotFound) :=
  cli_exit_codes "unknown_type" emptyEnv { fileExists := false, rows := [] }
    { fileExists := true,
      rows := [⟨1, 1, 1, 1⟩, ⟨2, 2, 2, 2⟩, ⟨3, 3, 3, 3⟩, ⟨4, 4, 4, 4⟩,
               ⟨5, 5, 5, 5⟩] }
    "random_forest" "random_forest" formulaState c8Measurement
    "missing_script.py" (by decide) (by decide) rfl (by decide) rfl (by decide)

end EnergyEstimator
